import Mathlib

/-!
Verification development for the gesture-media-control repository.

Shallow embedding of the core gesture pipeline:
* `VolumeController` — src/VolumeController.py (set_volume / get_volume)
* `fingers_up`, `find_distance_sq`, gesture detectors and
  `enhanced_detect_gesture` — src/HandTrackingModule.py and
  src/services/gesture_handler.py
* `GestureAction` / discrete dispatch step — src/services/gesture_handler.py
* `handleVolumeControl`, `distance_to_percent` — src/services/gesture_handler.py
* `should_update_volume` — src/utils/performance_optimizer.py

Conventions: wall-clock times, distances and smoothed values are rationals
(the Python floats, taken exactly); volume percentages are integers;
gesture labels are the source's strings.  Distance comparisons against
pixel thresholds are embedded as comparisons of squared Euclidean
distances against squared thresholds (exact for the real-valued
`math.hypot`).  A Python callback that may raise is modelled by a boolean
"the callback ran without raising"; the platform-specific volume setter
outcome is modelled by `SetOutcome`.
-/

/-- Outcome of the platform-specific volume-setting call inside
`VolumeController.set_volume`: it returned `True`, returned `False`
(having swallowed any internal error itself), or raised an exception
that propagates to `set_volume`'s own `except` clause. -/
inductive SetOutcome where
  | ok : SetOutcome
  | failFalse : SetOutcome
  | raises : SetOutcome
deriving DecidableEq, Repr

/-- State of `VolumeController` (src/VolumeController.py): the cached
`current_volume` and whether a platform backend is available. -/
structure VolumeController where
  currentVolume : ℤ
  volumeAvailable : Bool
deriving DecidableEq, Repr

/-- `VolumeController.set_volume` (src/VolumeController.py lines 122-147):
clamps the argument to [0,100], stores it, then calls the platform setter.
In simulation mode (`volume_available` false) it reports success.  If the
platform setter raises, the old value is restored ("Rollback on error")
and failure is reported; if the setter merely returns `False`, failure is
reported but the clamped value stays stored (no rollback on that path). -/
def VolumeController.set_volume (vc : VolumeController) (volume_percent : ℤ)
    (outcome : SetOutcome) : Bool × VolumeController :=
  let clamped := max 0 (min 100 volume_percent)
  let old := vc.currentVolume
  let vc1 : VolumeController := { vc with currentVolume := clamped }
  if vc.volumeAvailable = false then (true, vc1)
  else
    match outcome with
    | .ok => (true, vc1)
    | .failFalse => (false, vc1)
    | .raises => (false, { vc1 with currentVolume := old })

/-- `VolumeController.get_volume` (src/VolumeController.py lines 199-203). -/
def VolumeController.get_volume (vc : VolumeController) : ℤ :=
  vc.currentVolume

/-- `VolumeController.__init__` starts with `current_volume = 50`. -/
def VolumeController.init (avail : Bool) : VolumeController :=
  { currentVolume := 50, volumeAvailable := avail }

/-- Apply a sequence of `set_volume` calls (argument paired with the
platform outcome of that call). -/
def VolumeController.applyCalls (vc : VolumeController)
    (calls : List (ℤ × SetOutcome)) : VolumeController :=
  calls.foldl (fun s c => (s.set_volume c.1 c.2).2) vc

/-! ## Hand landmarks and the finger / gesture classifiers -/

/-- A landmark snapshot: the pixel coordinates `(cx, cy)` of the hand
landmarks, in index order, as produced by `HandDetector.find_position`
(src/HandTrackingModule.py; the leading `id` entry of each
`[id, cx, cy]` triple equals the list index and is left implicit). -/
abbrev Snapshot := List (ℤ × ℤ)

/-- Landmark access `landmarks_list[i]`: total with a default, only used
behind the source's own length guards. -/
def lmAt (lm : Snapshot) (i : ℕ) : ℤ × ℤ :=
  lm.getD i (0, 0)

/-- `HandDetector.fingers_up` (src/HandTrackingModule.py lines 130-152):
empty when fewer than 21 landmarks; otherwise the thumb is up iff
`landmarks[4].x > landmarks[3].x`, and each remaining finger with tip
index `t ∈ {8,12,16,20}` is up iff `landmarks[t].y < landmarks[t-2].y`. -/
def fingers_up (lm : Snapshot) : List ℤ :=
  if lm.length < 21 then []
  else
    let thumb : ℤ := if (lmAt lm 4).1 > (lmAt lm 3).1 then 1 else 0
    let finger : ℕ → ℤ := fun t => if (lmAt lm t).2 < (lmAt lm (t - 2)).2 then 1 else 0
    [thumb, finger 8, finger 12, finger 16, finger 20]

/-- Squared Euclidean distance between landmarks `p1` and `p2`. -/
def sqDist (lm : Snapshot) (p1 p2 : ℕ) : ℤ :=
  ((lmAt lm p2).1 - (lmAt lm p1).1) ^ 2 + ((lmAt lm p2).2 - (lmAt lm p1).2) ^ 2

/-- `HandDetector.find_distance` (src/HandTrackingModule.py): returns
length 0 when the list is shorter than `max p1 p2 + 1`, otherwise
`math.hypot` of the coordinate differences.  Embedded as the squared
length, so a source comparison `find_distance < c` becomes
`find_distance_sq < c^2` (exact for nonnegative thresholds). -/
def find_distance_sq (lm : Snapshot) (p1 p2 : ℕ) : ℤ :=
  if lm.length < max p1 p2 + 1 then 0 else sqDist lm p1 p2

/-- `detect_mute_gesture` (src/services/gesture_handler.py): closed fist. -/
def detect_mute_gesture (lm : Snapshot) : String :=
  if lm.length < 21 then "Unknown"
  else if fingers_up lm = [] then "Unknown"
  else if (fingers_up lm).sum = 0 then "Mute"
  else "Unknown"

/-- `detect_previous_gesture` (src/services/gesture_handler.py): thumb tip
below thumb base (`landmarks[4].y > landmarks[2].y`) and at least three of
the four non-thumb fingers up. -/
def detect_previous_gesture (lm : Snapshot) : String :=
  if lm.length < 21 then "Unknown"
  else if fingers_up lm = [] then "Unknown"
  else if (lmAt lm 4).2 > (lmAt lm 2).2 ∧ 3 ≤ ((fingers_up lm).drop 1).sum then "Previous"
  else "Unknown"

/-- `detect_brightness_gesture` (src/services/gesture_handler.py): open palm. -/
def detect_brightness_gesture (lm : Snapshot) : String :=
  if lm.length < 21 then "Unknown"
  else if fingers_up lm = [] then "Unknown"
  else if (fingers_up lm).sum = 5 then "Brightness"
  else "Unknown"

/-- `detect_unmute_gesture` (src/services/gesture_handler.py lines 289-317):
at least four fingers up and both tip-to-tip spreads (index-middle and
middle-ring) strictly above 50 px.  The source's `except` fallback
(`sum(fingers) == 5` when the distance computation raises) is dead code in
this embedding: with the `len >= 21` guard in force, `find_distance` is
total and raises nothing. -/
def detect_unmute_gesture (lm : Snapshot) : String :=
  if lm.length < 21 then "Unknown"
  else if fingers_up lm = [] then "Unknown"
  else if 4 ≤ (fingers_up lm).sum ∧
      2500 < find_distance_sq lm 8 12 ∧ 2500 < find_distance_sq lm 12 16 then "Unmute"
  else "Unknown"

/-- `enhanced_detect_gesture` (src/services/gesture_handler.py lines
326-369), the classifier installed as `HandDetector.detect_gesture`.
The OK distance threshold is `config.gestures.ok_distance_threshold = 60`
(squared: 3600). -/
def enhanced_detect_gesture (lm : Snapshot) : String :=
  if lm = [] then "No Hand"
  else if fingers_up lm = [] then "Unknown"
  else if (fingers_up lm).getD 1 0 = 1 ∧ (fingers_up lm).getD 0 0 = 1 ∧
      ((fingers_up lm).drop 2).sum = 0 then
    "Volume Control"
  else if (fingers_up lm).getD 1 0 = 1 ∧ (fingers_up lm).getD 0 0 = 0 ∧
      ((fingers_up lm).drop 2).sum = 0 ∧ find_distance_sq lm 4 8 < 3600 then
    "OK"
  else if (fingers_up lm).getD 1 0 = 1 ∧ (fingers_up lm).getD 2 0 = 1 ∧
      ((fingers_up lm).drop 3).sum = 0 ∧ (fingers_up lm).getD 0 0 = 0 then
    "Peace"
  else if detect_mute_gesture lm ≠ "Unknown" then detect_mute_gesture lm
  else if detect_previous_gesture lm ≠ "Unknown" then detect_previous_gesture lm
  else if detect_brightness_gesture lm ≠ "Unknown" then detect_brightness_gesture lm
  else if detect_unmute_gesture lm ≠ "Unknown" then detect_unmute_gesture lm
  else "Unknown"

/-- The closed set of labels in the spec's data model. -/
def gestureLabels : List String :=
  ["No Hand", "Unknown", "Volume Control", "OK", "Peace",
   "Mute", "Previous", "Brightness", "Unmute"]

/-- Spec-side classifier, written from the spec's precedence table (§4.2):
first match wins in the order no-hand, volume-control, OK, peace, mute,
previous, brightness, unmute, otherwise unknown.  Each pattern is phrased
as the spec phrases it (per-finger up/down conditions on the five-element
vector, thumb→pinky; "all five fingers down" presupposes a five-finger
vector).  Used only to compare against `enhanced_detect_gesture`. -/
def specGestureClassifier (lm : Snapshot) : String :=
  if lm = [] then "No Hand"
  else if (fingers_up lm).getD 0 0 = 1 ∧ (fingers_up lm).getD 1 0 = 1 ∧
      (fingers_up lm).getD 2 0 = 0 ∧ (fingers_up lm).getD 3 0 = 0 ∧
      (fingers_up lm).getD 4 0 = 0 then "Volume Control"
  else if (fingers_up lm).getD 1 0 = 1 ∧ (fingers_up lm).getD 0 0 = 0 ∧
      (fingers_up lm).getD 2 0 = 0 ∧ (fingers_up lm).getD 3 0 = 0 ∧
      (fingers_up lm).getD 4 0 = 0 ∧ sqDist lm 4 8 < 3600 then "OK"
  else if (fingers_up lm).getD 1 0 = 1 ∧ (fingers_up lm).getD 2 0 = 1 ∧
      (fingers_up lm).getD 0 0 = 0 ∧ (fingers_up lm).getD 3 0 = 0 ∧
      (fingers_up lm).getD 4 0 = 0 then "Peace"
  else if (fingers_up lm).length = 5 ∧ (fingers_up lm).sum = 0 then "Mute"
  else if (lmAt lm 4).2 > (lmAt lm 2).2 ∧ 3 ≤ ((fingers_up lm).drop 1).sum then "Previous"
  else if (fingers_up lm).sum = 5 then "Brightness"
  else if 4 ≤ (fingers_up lm).sum ∧ 2500 < sqDist lm 8 12 ∧
      2500 < sqDist lm 12 16 then "Unmute"
  else "Unknown"

/-! ## Continuous control mapper -/

/-- Python `int(...)` truncation toward zero on a rational. -/
def pyInt (q : ℚ) : ℤ :=
  if 0 ≤ q then ⌊q⌋ else ⌈q⌉

/-- `np.interp(x, [xlo, xhi], [ylo, yhi])` for a two-point table:
values below `xlo` map to `ylo`, above `xhi` to `yhi`, linear in between. -/
def np_interp (x xlo xhi ylo yhi : ℚ) : ℚ :=
  if x ≤ xlo then ylo
  else if xhi ≤ x then yhi
  else ylo + (x - xlo) * (yhi - ylo) / (xhi - xlo)

/-- The distance→percent mapping of `GestureHandler._handle_volume_control`
(src/services/gesture_handler.py lines 136-138):
`volume = np.interp(d, [min_dist, max_dist], [0, 100])` followed by
`volume = max(0, min(100, volume))`, with the configured range
`config.volume_distance_range = (30, 200)`. -/
def distance_to_percent (d : ℚ) : ℚ :=
  max 0 (min 100 (np_interp d 30 200 0 100))

/-- State of `PerformanceOptimizer` (src/utils/performance_optimizer.py)
relevant to volume updates: the timestamp of the last permitted commit and
the update interval (`config.performance.volume_update_interval = 0.05`). -/
structure PerfOptimizer where
  lastVolumeUpdate : ℚ
  volumeUpdateInterval : ℚ
deriving DecidableEq, Repr

/-- `PerformanceOptimizer.should_update_volume`
(src/utils/performance_optimizer.py lines 25-29): permit a volume commit
iff strictly more than the update interval has elapsed since the last
permitted commit, recording the current time when permitting. -/
def should_update_volume (p : PerfOptimizer) (now : ℚ) : Bool × PerfOptimizer :=
  if p.volumeUpdateInterval < now - p.lastVolumeUpdate then
    (true, { p with lastVolumeUpdate := now })
  else (false, p)

/-! ## Discrete actions and the dispatcher -/

/-- `GestureAction` (src/services/gesture_handler.py lines 13-38): a named
discrete action with its cooldown (default
`Gestures.GESTURE_COOLDOWN = 1.0` s) and `last_triggered` timestamp
(initially 0).  The callback is external; one invocation is modelled by
the boolean `callbackOk` = "the callback ran without raising". -/
structure GestureAction where
  name : String
  cooldown : ℚ
  lastTriggered : ℚ
deriving DecidableEq, Repr

/-- `GestureAction.can_trigger`: the cooldown gate. -/
def GestureAction.can_trigger (a : GestureAction) (now : ℚ) : Bool :=
  a.cooldown ≤ now - a.lastTriggered

/-- `GestureAction.trigger` (src/services/gesture_handler.py lines 28-38):
if the cooldown gate passes, stamp `last_triggered := now` and invoke the
callback, returning `True` on success and `False` if the callback raised
(the exception is caught); otherwise return `False` unchanged. -/
def GestureAction.trigger (a : GestureAction) (now : ℚ) (callbackOk : Bool) :
    Bool × GestureAction :=
  if a.can_trigger now then (callbackOk, { a with lastTriggered := now })
  else (false, a)

/-- Mutable state of `GestureHandler` (src/services/gesture_handler.py):
session labels, gesture start time, continuous-control flags, the smoothed
volume and smoothed pinch distance, and the per-gesture discrete action
table. -/
structure HandlerState where
  currentGesture : String
  lastGesture : String
  gestureStartTime : ℚ
  volumeControlActive : Bool
  brightnessControlActive : Bool
  smoothVolume : ℚ
  lastVolumeDistance : ℚ
  actions : List (String × GestureAction)
deriving DecidableEq, Repr

/-- The action table built in `GestureHandler.__init__`. -/
def initActions : List (String × GestureAction) :=
  [("OK", ⟨"Play/Pause", 1, 0⟩),
   ("Peace", ⟨"Next Track", 1, 0⟩),
   ("Mute", ⟨"Mute Toggle", 1, 0⟩),
   ("Unmute", ⟨"Unmute Toggle", 1, 0⟩),
   ("Previous", ⟨"Previous Track", 1, 0⟩),
   ("Brightness", ⟨"Brightness Control", 1, 0⟩)]

/-- `GestureHandler.__init__` state: both session labels start at the
`"No Hand"` sentinel and every action's cooldown timestamp is 0. -/
def initHandlerState (controllerVolume : ℚ) : HandlerState :=
  { currentGesture := "No Hand"
    lastGesture := "No Hand"
    gestureStartTime := 0
    volumeControlActive := false
    brightnessControlActive := false
    smoothVolume := controllerVolume
    lastVolumeDistance := 0
    actions := initActions }

/-- Replace the entry for gesture `g` in the action table (the in-place
mutation of `self.actions[gesture]` by a trigger). -/
def updateAction (acts : List (String × GestureAction)) (g : String)
    (a : GestureAction) : List (String × GestureAction) :=
  acts.map (fun p => if p.1 = g then (g, a) else p)

/-- The discrete-dispatch portion of
`GestureHandler.detect_and_handle_gesture`
(src/services/gesture_handler.py lines 87-88 and 103-117) for one frame:
record `current_gesture := gesture`; if the label is a discrete action's
key AND differs from the previous frame's label, attempt `trigger`; then,
if the label changed, restart the gesture clock and set
`last_gesture := gesture`.  Returns (attempted, fired, new state). -/
def stepDiscrete (s : HandlerState) (gesture : String) (now : ℚ)
    (callbackOk : Bool) : Bool × Bool × HandlerState :=
  let att :=
    match s.actions.lookup gesture with
    | some a =>
        if gesture ≠ s.lastGesture then
          let r := a.trigger now callbackOk
          (true, r.1, updateAction s.actions gesture r.2)
        else (false, false, s.actions)
    | none => (false, false, s.actions)
  let s1 : HandlerState :=
    if gesture ≠ s.lastGesture then
      { s with currentGesture := gesture, actions := att.2.2,
               gestureStartTime := now, lastGesture := gesture }
    else { s with currentGesture := gesture, actions := att.2.2 }
  (att.1, att.2.1, s1)

/-- Process a run of frames that all carry the same gesture label `g`:
each frame supplies its sampled time and callback outcome.  Returns the
list of per-frame (attempted, fired) pairs and the final state. -/
def runHold (s : HandlerState) (g : String) :
    List (ℚ × Bool) → List (Bool × Bool) × HandlerState
  | [] => ([], s)
  | f :: rest =>
      let r := stepDiscrete s g f.1 f.2
      let rr := runHold r.2.2 g rest
      ((r.1, r.2.1) :: rr.1, rr.2)

/-- `GestureHandler.reset_state` (src/services/gesture_handler.py lines
233-240): reset both session labels to `"No Hand"`, restart the gesture
clock, deactivate the continuous-control flags, and re-seed the smoothed
volume from `volume_controller.get_volume()`.  The action table (and with
it every `last_triggered` cooldown timestamp) is not touched. -/
def reset_state (s : HandlerState) (now : ℚ) (controllerVolume : ℚ) :
    HandlerState :=
  { s with currentGesture := "No Hand"
           lastGesture := "No Hand"
           gestureStartTime := now
           volumeControlActive := false
           brightnessControlActive := false
           smoothVolume := controllerVolume }

/-- `GestureHandler._handle_volume_control` (src/services/gesture_handler.py
lines 121-153) for one processed frame while the Volume Control gesture is
held: if no landmarks, do nothing; otherwise smooth the measured
thumb-index distance (`0.7/0.3` exponential filter, the first sample
seeding the filter), map it through `distance_to_percent`, low-pass the
percent with `config.performance.smoothing_factor = 0.3`, and call
`volume_controller.set_volume(int(smooth_volume))` — unconditionally, on
every processed frame.  `rawDist` is the frame's measured pixel distance;
`outcome` is the platform setter's outcome for the embedded `set_volume`
call.  Returns (action_taken, handler state, controller state). -/
def handleVolumeControl (s : HandlerState) (vc : VolumeController)
    (hasLandmarks : Bool) (rawDist : ℚ) (outcome : SetOutcome) :
    Bool × HandlerState × VolumeController :=
  if hasLandmarks = false then (false, s, vc)
  else
    let lastD :=
      if s.lastVolumeDistance = 0 then rawDist
      else s.lastVolumeDistance * (7/10) + rawDist * (3/10)
    let volume := distance_to_percent lastD
    let smooth := s.smoothVolume * (1 - 3/10) + volume * (3/10)
    let vc1 := (vc.set_volume (pyInt smooth) outcome).2
    (true,
     { s with lastVolumeDistance := lastD, smoothVolume := smooth,
              volumeControlActive := true },
     vc1)

/-! ## Concrete states used in witnesses and counterexamples -/

/-- A handler state mid-session: the OK action was last triggered at
time 5 and both session labels are "OK". -/
def exampleHandlerState : HandlerState :=
  { currentGesture := "OK"
    lastGesture := "OK"
    gestureStartTime := 4
    volumeControlActive := true
    brightnessControlActive := false
    smoothVolume := 70
    lastVolumeDistance := 0
    actions :=
      [("OK", ⟨"Play/Pause", 1, 5⟩),
       ("Peace", ⟨"Next Track", 1, 0⟩),
       ("Mute", ⟨"Mute Toggle", 1, 0⟩),
       ("Unmute", ⟨"Unmute Toggle", 1, 0⟩),
       ("Previous", ⟨"Previous Track", 1, 0⟩),
       ("Brightness", ⟨"Brightness Control", 1, 0⟩)] }

/-- A 21-landmark snapshot with thumb, index, middle and ring up, pinky
down, widely spread tips (index-middle and middle-ring tip distances of
60 px), and the thumb tip not below the thumb base. -/
def unmuteSnapshot : Snapshot :=
  [(0, 100), (0, 100), (0, 100), (0, 100), (10, 100),
   (0, 100), (0, 100), (0, 100), (0, 0), (0, 100),
   (0, 100), (0, 100), (60, 0), (0, 100), (0, 100),
   (0, 100), (120, 0), (0, 100), (0, 100), (0, 100),
   (0, 100)]
lemma VolumeController.set_volume_bounds (vc : VolumeController)
    (v : ℤ) (o : SetOutcome)
    (h0 : 0 ≤ vc.currentVolume) (h1 : vc.currentVolume ≤ 100) :
    0 ≤ ((vc.set_volume v o).2).currentVolume ∧
      ((vc.set_volume v o).2).currentVolume ≤ 100 := by
  unfold VolumeController.set_volume
  have hc0 : (0 : ℤ) ≤ max 0 (min 100 v) := le_max_left _ _
  have hc1 : max 0 (min 100 v) ≤ 100 := by
    apply max_le (by norm_num)
    exact min_le_left _ _
  by_cases hav : vc.volumeAvailable = false <;> cases o <;>
    simp [hav] <;> try omega

lemma VolumeController.applyCalls_bounds (calls : List (ℤ × SetOutcome))
    (vc : VolumeController)
    (h0 : 0 ≤ vc.currentVolume) (h1 : vc.currentVolume ≤ 100) :
    0 ≤ (vc.applyCalls calls).currentVolume ∧
      (vc.applyCalls calls).currentVolume ≤ 100 := by
  induction calls generalizing vc with
  | nil => exact ⟨h0, h1⟩
  | cons c rest ih =>
      have hstep := vc.set_volume_bounds c.1 c.2 h0 h1
      simpa [VolumeController.applyCalls] using
        ih (vc.set_volume c.1 c.2).2 hstep.1 hstep.2

lemma detect_mute_cases (lm : Snapshot) :
    detect_mute_gesture lm = "Mute" ∨ detect_mute_gesture lm = "Unknown" := by
  unfold detect_mute_gesture
  split_ifs <;> simp

lemma detect_previous_cases (lm : Snapshot) :
    detect_previous_gesture lm = "Previous" ∨ detect_previous_gesture lm = "Unknown" := by
  unfold detect_previous_gesture
  split_ifs <;> simp

lemma detect_brightness_cases (lm : Snapshot) :
    detect_brightness_gesture lm = "Brightness" ∨
      detect_brightness_gesture lm = "Unknown" := by
  unfold detect_brightness_gesture
  split_ifs <;> simp

lemma detect_unmute_cases (lm : Snapshot) :
    detect_unmute_gesture lm = "Unmute" ∨ detect_unmute_gesture lm = "Unknown" := by
  unfold detect_unmute_gesture
  split_ifs <;> simp

lemma enhanced_mem_gestureLabels (lm : Snapshot) :
    enhanced_detect_gesture lm ∈ gestureLabels := by
  unfold enhanced_detect_gesture
  split_ifs
  · simp [gestureLabels]
  · simp [gestureLabels]
  · simp [gestureLabels]
  · simp [gestureLabels]
  · simp [gestureLabels]
  · rcases detect_mute_cases lm with h | h <;> simp [h, gestureLabels]
  · rcases detect_previous_cases lm with h | h <;> simp [h, gestureLabels]
  · rcases detect_brightness_cases lm with h | h <;> simp [h, gestureLabels]
  · rcases detect_unmute_cases lm with h | h <;> simp [h, gestureLabels]
  · simp [gestureLabels]

lemma fingers_up_of_length (lm : Snapshot) (h : ¬ lm.length < 21) :
    fingers_up lm =
      [if (lmAt lm 4).1 > (lmAt lm 3).1 then 1 else 0,
       if (lmAt lm 8).2 < (lmAt lm 6).2 then 1 else 0,
       if (lmAt lm 12).2 < (lmAt lm 10).2 then 1 else 0,
       if (lmAt lm 16).2 < (lmAt lm 14).2 then 1 else 0,
       if (lmAt lm 20).2 < (lmAt lm 18).2 then 1 else 0] := by
  simp only [fingers_up, if_neg h]

lemma find_distance_sq_of_length (lm : Snapshot) (p1 p2 : ℕ)
    (h : max p1 p2 + 1 ≤ lm.length) :
    find_distance_sq lm p1 p2 = sqDist lm p1 p2 := by
  unfold find_distance_sq
  rw [if_neg (by omega)]

set_option maxHeartbeats 1000000 in
lemma enhanced_eq_spec (lm : Snapshot) :
    enhanced_detect_gesture lm = specGestureClassifier lm := by
  by_cases h0 : lm = []
  · simp [enhanced_detect_gesture, specGestureClassifier, h0]
  by_cases hl : lm.length < 21
  · have hf : fingers_up lm = [] := by simp [fingers_up, hl]
    simp [enhanced_detect_gesture, specGestureClassifier, h0, hf, hl,
      detect_mute_gesture, detect_previous_gesture, detect_brightness_gesture,
      detect_unmute_gesture]
  · have hf := fingers_up_of_length lm hl
    have hd48 := find_distance_sq_of_length lm 4 8 (by omega)
    have hd812 := find_distance_sq_of_length lm 8 12 (by omega)
    have hd1216 := find_distance_sq_of_length lm 12 16 (by omega)
    obtain ⟨t, i, m, r, p, hf5, ht, hi, hm, hr, hp⟩ :
        ∃ t i m r p : ℤ, fingers_up lm = [t, i, m, r, p] ∧
          (t = 0 ∨ t = 1) ∧ (i = 0 ∨ i = 1) ∧ (m = 0 ∨ m = 1) ∧
          (r = 0 ∨ r = 1) ∧ (p = 0 ∨ p = 1) := by
      rw [hf]
      refine ⟨_, _, _, _, _, rfl, ?_, ?_, ?_, ?_, ?_⟩ <;> split <;> simp
    rcases ht with rfl | rfl <;> rcases hi with rfl | rfl <;>
      rcases hm with rfl | rfl <;> rcases hr with rfl | rfl <;>
        rcases hp with rfl | rfl <;>
          (simp only [enhanced_detect_gesture, specGestureClassifier,
             detect_mute_gesture, detect_previous_gesture,
             detect_brightness_gesture, detect_unmute_gesture,
             hf5, hd48, hd812, hd1216, if_neg h0, if_neg hl]
           try norm_num
           try simp
           try (split_ifs <;> first | rfl | simp_all)
           try (intro hy; simp [not_lt.mpr hy]))

/-! ## Claim theorems -/

/-- C10: the volume controller starts at 50 and clamps every stored level
to [0, 100], so after any sequence of `set_volume` calls with arbitrary
integer arguments and arbitrary platform outcomes, `get_volume` returns a
value in [0, 100]. -/
theorem claim_C10 (avail : Bool) (calls : List (ℤ × SetOutcome)) :
    (VolumeController.init avail).get_volume = 50 ∧
    0 ≤ ((VolumeController.init avail).applyCalls calls).get_volume ∧
    ((VolumeController.init avail).applyCalls calls).get_volume ≤ 100 := by
  refine ⟨rfl, ?_⟩
  have h := VolumeController.applyCalls_bounds calls (VolumeController.init avail)
    (by norm_num [VolumeController.init]) (by norm_num [VolumeController.init])
  exact ⟨h.1, h.2⟩

/-- C5 counterexample: with a working backend, a `set_volume 80` call on
which the platform setter reports failure by returning `False` reports
failure, yet `get_volume` afterwards returns the new value 80, not the
previously committed 50 — the claim's "previous committed level is
retained on reported failure" is false on this path. -/
theorem claim_C5_counterexample :
    (VolumeController.set_volume ⟨50, true⟩ 80 .failFalse).1 = false ∧
    (VolumeController.set_volume ⟨50, true⟩ 80 .failFalse).2.get_volume = 80 ∧
    (⟨50, true⟩ : VolumeController).get_volume = 50 := by
  decide

/-- C5 (amended): with a working backend, the previously committed level
is restored only when the platform setter raises (the exception path,
which reports failure); when the setter reports failure by returning
`False`, failure is reported but the newly clamped level stays committed,
so `get_volume` returns the new value. -/
theorem claim_C5 (vc : VolumeController) (v : ℤ)
    (h : vc.volumeAvailable = true) :
    ((vc.set_volume v .raises).1 = false ∧
      (vc.set_volume v .raises).2.get_volume = vc.get_volume) ∧
    ((vc.set_volume v .failFalse).1 = false ∧
      (vc.set_volume v .failFalse).2.get_volume = max 0 (min 100 v)) := by
  simp [VolumeController.set_volume, VolumeController.get_volume, h]

/-- C5 witness: the amended claim evaluated at a concrete controller. -/
theorem claim_C5_witness :
    (⟨50, true⟩ : VolumeController).volumeAvailable = true ∧
    ((VolumeController.set_volume ⟨50, true⟩ 200 .raises).1 = false ∧
      (VolumeController.set_volume ⟨50, true⟩ 200 .raises).2.get_volume =
        (⟨50, true⟩ : VolumeController).get_volume) ∧
    ((VolumeController.set_volume ⟨50, true⟩ 200 .failFalse).1 = false ∧
      (VolumeController.set_volume ⟨50, true⟩ 200 .failFalse).2.get_volume =
        max 0 (min 100 200)) :=
  ⟨rfl, claim_C5 ⟨50, true⟩ 200 rfl⟩

/-- C8: the distance→percent mapping is linear interpolation from the
configured range [30, 200] to [0, 100], clamped at both ends: 30 ↦ 0,
200 ↦ 100, 500 clamps to 100, -10 clamps to 0, and on [30, 200] the map
is exactly `(d - 30) * 100 / 170`. -/
theorem claim_C8 :
    distance_to_percent 30 = 0 ∧
    distance_to_percent 200 = 100 ∧
    distance_to_percent 500 = 100 ∧
    distance_to_percent (-10) = 0 ∧
    (∀ d : ℚ, d ≤ 30 → distance_to_percent d = 0) ∧
    (∀ d : ℚ, 200 ≤ d → distance_to_percent d = 100) ∧
    (∀ d : ℚ, 30 ≤ d → d ≤ 200 → distance_to_percent d = (d - 30) * 100 / 170) := by
  refine ⟨by norm_num [distance_to_percent, np_interp],
          by norm_num [distance_to_percent, np_interp],
          by norm_num [distance_to_percent, np_interp],
          by norm_num [distance_to_percent, np_interp], ?_, ?_, ?_⟩
  · intro d hd
    simp [distance_to_percent, np_interp, hd]
  · intro d hd
    by_cases h30 : d ≤ 30
    · linarith
    · simp [distance_to_percent, np_interp, h30, hd]
  · intro d h1 h2
    by_cases hlo : d ≤ 30
    · have : d = 30 := le_antisymm hlo h1
      subst this
      norm_num [distance_to_percent, np_interp]
    · by_cases hhi : 200 ≤ d
      · have : d = 200 := le_antisymm h2 hhi
        subst this
        norm_num [distance_to_percent, np_interp]
      · have hv0 : 0 ≤ (d - 30) * 100 / 170 := by
          apply div_nonneg _ (by norm_num)
          nlinarith
        have hv1 : (d - 30) * 100 / 170 ≤ 100 := by
          rw [div_le_iff₀ (by norm_num)]
          nlinarith
        simp only [distance_to_percent, np_interp, if_neg hlo, if_neg hhi]
        rw [min_eq_right (by linarith), max_eq_right (by linarith)]
        ring

/-- C8 witness: the interior linearity and the clamp branches at concrete
inputs (d = 115 maps to 50). -/
theorem claim_C8_witness :
    (30 : ℚ) ≤ 115 ∧ (115 : ℚ) ≤ 200 ∧ distance_to_percent 115 = 50 ∧
    distance_to_percent 10 = 0 ∧ distance_to_percent 300 = 100 := by
  refine ⟨by norm_num, by norm_num, ?_, ?_, ?_⟩
  · rw [claim_C8.2.2.2.2.2.2 115 (by norm_num) (by norm_num)]
    norm_num
  · rw [claim_C8.2.2.2.2.1 10 (by norm_num)]
  · rw [claim_C8.2.2.2.2.2.1 300 (by norm_num)]

/-- C2: two consecutive Volume Control frames processed by
`handleVolumeControl` (from the freshly initialized handler, measured
pinch distance 100 px, working backend) each commit a level to the
controller — `set_volume` runs on every processed frame
(50 → 47 → 45) — even though the rate limiter
`should_update_volume`, with a commit recorded at t = 0 and the default
50 ms interval, would deny a commit at t = 0.001 s.  The handler never
consults the rate limiter. -/
theorem claim_C2 :
    (handleVolumeControl (initHandlerState 50) (VolumeController.init true)
        true 100 .ok).1 = true ∧
    (handleVolumeControl (initHandlerState 50) (VolumeController.init true)
        true 100 .ok).2.2.currentVolume = 47 ∧
    (handleVolumeControl
        (handleVolumeControl (initHandlerState 50) (VolumeController.init true)
          true 100 .ok).2.1
        (handleVolumeControl (initHandlerState 50) (VolumeController.init true)
          true 100 .ok).2.2
        true 100 .ok).1 = true ∧
    (handleVolumeControl
        (handleVolumeControl (initHandlerState 50) (VolumeController.init true)
          true 100 .ok).2.1
        (handleVolumeControl (initHandlerState 50) (VolumeController.init true)
          true 100 .ok).2.2
        true 100 .ok).2.2.currentVolume = 45 ∧
    (should_update_volume ⟨0, 1/20⟩ (1/1000)).1 = false := by
  norm_num [handleVolumeControl, initHandlerState, VolumeController.init,
    VolumeController.set_volume, VolumeController.get_volume,
    distance_to_percent, np_interp, pyInt, should_update_volume,
    min_def, max_def]

/-- C7 counterexample: a snapshot with 22 landmarks (count ≠ 21) does not
produce the empty finger vector — `fingers_up` returns a five-entry
vector — and the pipeline classifies it as "Mute", not the
No Hand / Unknown sentinel.  The source guard is `len < 21`, not
`len != 21`. -/
theorem claim_C7_counterexample :
    (List.replicate 22 ((0 : ℤ), (0 : ℤ))).length ≠ 21 ∧
    fingers_up (List.replicate 22 ((0 : ℤ), (0 : ℤ))) ≠ [] ∧
    enhanced_detect_gesture (List.replicate 22 ((0 : ℤ), (0 : ℤ))) = "Mute" := by
  decide

/-- C7 (amended): for snapshots with fewer than 21 landmarks the
Finger-State Classifier returns the empty vector and the pipeline returns
the No Hand (empty snapshot) or Unknown (short non-empty snapshot)
sentinel; snapshots with 21 or more landmarks are processed as a hand
(a five-entry vector). -/
theorem claim_C7 (lm : Snapshot) :
    (lm.length < 21 →
      fingers_up lm = [] ∧
      (lm = [] → enhanced_detect_gesture lm = "No Hand") ∧
      (lm ≠ [] → enhanced_detect_gesture lm = "Unknown")) ∧
    (21 ≤ lm.length → (fingers_up lm).length = 5) := by
  constructor
  · intro hl
    have hf : fingers_up lm = [] := by simp [fingers_up, hl]
    refine ⟨hf, ?_, ?_⟩
    · intro h0
      simp [enhanced_detect_gesture, h0]
    · intro h0
      simp [enhanced_detect_gesture, h0, hf]
  · intro hl
    rw [fingers_up_of_length lm (by omega)]
    rfl

/-- C7 witness: the amended claim at a five-landmark snapshot and at the
empty snapshot. -/
theorem claim_C7_witness :
    (List.replicate 5 ((0 : ℤ), (0 : ℤ))).length < 21 ∧
    fingers_up (List.replicate 5 ((0 : ℤ), (0 : ℤ))) = [] ∧
    enhanced_detect_gesture (List.replicate 5 ((0 : ℤ), (0 : ℤ))) = "Unknown" ∧
    enhanced_detect_gesture ([] : Snapshot) = "No Hand" :=
  ⟨by decide,
   ((claim_C7 (List.replicate 5 ((0 : ℤ), (0 : ℤ)))).1 (by decide)).1,
   ((claim_C7 (List.replicate 5 ((0 : ℤ), (0 : ℤ)))).1 (by decide)).2.2 (by decide),
   ((claim_C7 ([] : Snapshot)).1 (by decide)).2.1 rfl⟩

/-- C6: when an action's cooldown has elapsed, `trigger` stamps
`last_triggered := now` before the callback runs (the stamp is present
even when the callback raises); a raising callback makes the trigger
report `false` while the stamp remains, so the action cannot fire again
until the cooldown elapses from `now`; and the trigger reports `true` iff
the callback actually ran to completion.  With the cooldown gate closed,
`trigger` reports `false` and leaves the action unchanged. -/
theorem claim_C6 (a : GestureAction) (now nowNext : ℚ) (callbackOk ok2 : Bool) :
    (a.can_trigger now = true →
      (a.trigger now callbackOk).2.lastTriggered = now ∧
      (a.trigger now callbackOk).1 = callbackOk ∧
      (callbackOk = false → (a.trigger now callbackOk).1 = false) ∧
      (nowNext - now < a.cooldown →
        ((a.trigger now callbackOk).2.trigger nowNext ok2).1 = false)) ∧
    (a.can_trigger now = false → a.trigger now callbackOk = (false, a)) := by
  constructor
  · intro h
    refine ⟨?_, ?_, ?_, ?_⟩
    · simp [GestureAction.trigger, h]
    · simp [GestureAction.trigger, h]
    · intro hcb
      simp [GestureAction.trigger, h, hcb]
    · intro hnext
      have h2 : (a.trigger now callbackOk).2 = { a with lastTriggered := now } := by
        simp [GestureAction.trigger, h]
      rw [h2]
      have hgate : GestureAction.can_trigger
          { a with lastTriggered := now } nowNext = false := by
        simp only [GestureAction.can_trigger, decide_eq_false_iff_not, not_le]
        linarith
      simp [GestureAction.trigger, hgate]
  · intro h
    simp [GestureAction.trigger, h]

/-- C6 witness: a fresh action (cooldown 1, last triggered 0) at time 5
with a raising callback: the trigger reports false, the timestamp is
stamped to 5, and a retry at 5.5 cannot fire. -/
theorem claim_C6_witness :
    GestureAction.can_trigger ⟨"Play/Pause", 1, 0⟩ 5 = true ∧
    (GestureAction.trigger ⟨"Play/Pause", 1, 0⟩ 5 false).2.lastTriggered = 5 ∧
    (GestureAction.trigger ⟨"Play/Pause", 1, 0⟩ 5 false).1 = false ∧
    ((GestureAction.trigger ⟨"Play/Pause", 1, 0⟩ 5 false).2.trigger
        (11/2) true).1 = false := by
  have hcan : GestureAction.can_trigger ⟨"Play/Pause", 1, 0⟩ 5 = true := by
    simp only [GestureAction.can_trigger, decide_eq_true_eq]
    norm_num
  have h := (claim_C6 ⟨"Play/Pause", 1, 0⟩ 5 (11/2) false true).1 hcan
  exact ⟨hcan, h.1, h.2.2.1 rfl, h.2.2.2 (by norm_num)⟩

/-- C3 counterexample: `reset_state` does not clear cooldown timestamps.
Starting from a state whose OK action was last triggered at time 5,
resetting at time 10 leaves the OK timestamp at 5 (not cleared to 0), and
at time 5.5 the OK action still cannot fire — contradicting "each action
can fire immediately on the next qualifying edge". -/
theorem claim_C3_counterexample :
    (reset_state exampleHandlerState 10 50).actions.lookup "OK" =
      some ⟨"Play/Pause", 1, 5⟩ ∧
    GestureAction.can_trigger ⟨"Play/Pause", 1, 5⟩ (11/2) = false := by
  refine ⟨rfl, ?_⟩
  simp only [GestureAction.can_trigger, decide_eq_false_iff_not, not_le]
  norm_num

/-- C3 (amended): `reset_state` resets the session's current and previous
labels to the "No Hand" sentinel, restarts the gesture clock, clears the
continuous-control flags and re-seeds the smoothed volume — but leaves
the action table untouched, so an action whose cooldown has not yet
elapsed still cannot fire after the reset. -/
theorem claim_C3 (s : HandlerState) (now cv : ℚ) :
    (reset_state s now cv).currentGesture = "No Hand" ∧
    (reset_state s now cv).lastGesture = "No Hand" ∧
    (reset_state s now cv).gestureStartTime = now ∧
    (reset_state s now cv).volumeControlActive = false ∧
    (reset_state s now cv).brightnessControlActive = false ∧
    (reset_state s now cv).smoothVolume = cv ∧
    (reset_state s now cv).actions = s.actions ∧
    (∀ g a t, s.actions.lookup g = some a →
      t - a.lastTriggered < a.cooldown →
      (reset_state s now cv).actions.lookup g = some a ∧
        a.can_trigger t = false) := by
  refine ⟨rfl, rfl, rfl, rfl, rfl, rfl, rfl, ?_⟩
  intro g a t hga ht
  refine ⟨hga, ?_⟩
  simp only [GestureAction.can_trigger, decide_eq_false_iff_not, not_le]
  linarith

/-- C3 witness: the amended claim at the example state, resetting at time
10: labels are reset, the OK action's entry is preserved and it cannot
fire at time 5.5. -/
theorem claim_C3_witness :
    (reset_state exampleHandlerState 10 50).lastGesture = "No Hand" ∧
    (reset_state exampleHandlerState 10 50).currentGesture = "No Hand" ∧
    ((reset_state exampleHandlerState 10 50).actions.lookup "OK" =
        some ⟨"Play/Pause", 1, 5⟩ ∧
      GestureAction.can_trigger ⟨"Play/Pause", 1, 5⟩ (11/2) = false) :=
  ⟨(claim_C3 exampleHandlerState 10 50).2.1,
   (claim_C3 exampleHandlerState 10 50).1,
   (claim_C3 exampleHandlerState 10 50).2.2.2.2.2.2.2 "OK" ⟨"Play/Pause", 1, 5⟩
     (11/2) rfl (by norm_num)⟩

/-- C4: for every landmark snapshot the classifier returns exactly one
label from the closed nine-value set, and it equals the spec's
first-match precedence chain (no-hand, volume-control, OK, peace, mute,
previous, brightness, unmute, otherwise unknown). -/
theorem claim_C4 (lm : Snapshot) :
    enhanced_detect_gesture lm ∈ gestureLabels ∧
    enhanced_detect_gesture lm = specGestureClassifier lm :=
  ⟨enhanced_mem_gestureLabels lm, enhanced_eq_spec lm⟩

lemma fingers_up_ne_nil (lm : Snapshot) (h : 21 ≤ lm.length) :
    fingers_up lm ≠ [] := by
  rw [fingers_up_of_length lm (by omega)]
  simp

lemma detect_brightness_of_sum5 (lm : Snapshot) (h : 21 ≤ lm.length)
    (hs : (fingers_up lm).sum = 5) :
    detect_brightness_gesture lm = "Brightness" := by
  unfold detect_brightness_gesture
  rw [if_neg (by omega), if_neg (fingers_up_ne_nil lm h), if_pos hs]

/-- C9: on a well-formed snapshot (≥ 21 landmarks) the unmute detector
returns "Unmute" exactly when at least 4 fingers are up and both
tip-to-tip spreads (index-middle, middle-ring) exceed 50 px; in the full
pipeline the unmute step is evaluated only after the all-five-up
Brightness check has failed, so a pipeline "Unmute" implies the finger
sum is not 5.  (The source's fallback for an uncomputable distance check
is dead code here: with ≥ 21 landmarks `find_distance` is total.) -/
theorem claim_C9 (lm : Snapshot) (h : 21 ≤ lm.length) :
    (detect_unmute_gesture lm = "Unmute" ↔
      4 ≤ (fingers_up lm).sum ∧ 2500 < find_distance_sq lm 8 12 ∧
        2500 < find_distance_sq lm 12 16) ∧
    ((fingers_up lm).sum = 5 → enhanced_detect_gesture lm ≠ "Unmute") ∧
    (enhanced_detect_gesture lm = "Unmute" →
      (fingers_up lm).sum ≠ 5 ∧ detect_unmute_gesture lm = "Unmute") := by
  have hiff : detect_unmute_gesture lm = "Unmute" ↔
      4 ≤ (fingers_up lm).sum ∧ 2500 < find_distance_sq lm 8 12 ∧
        2500 < find_distance_sq lm 12 16 := by
    unfold detect_unmute_gesture
    rw [if_neg (by omega), if_neg (fingers_up_ne_nil lm h)]
    split_ifs with hc
    · simp [hc]
    · simp [hc]
  have hmain : enhanced_detect_gesture lm = "Unmute" →
      (fingers_up lm).sum ≠ 5 ∧ detect_unmute_gesture lm = "Unmute" := by
    intro he
    unfold enhanced_detect_gesture at he
    split_ifs at he with h1 h2 h3 h4 h5 h6 h7 h8 h9
    · exact absurd he (by simp)
    · exact absurd he (by simp)
    · exact absurd he (by simp)
    · exact absurd he (by simp)
    · exact absurd he (by simp)
    · rcases detect_mute_cases lm with hm | hm
      · rw [hm] at he
        exact absurd he (by simp)
      · exact absurd hm h6
    · rcases detect_previous_cases lm with hp | hp
      · rw [hp] at he
        exact absurd he (by simp)
      · exact absurd hp h7
    · rcases detect_brightness_cases lm with hb | hb
      · rw [hb] at he
        exact absurd he (by simp)
      · exact absurd hb h8
    · constructor
      · intro hs
        have hbb := detect_brightness_of_sum5 lm h hs
        rw [hbb] at h8
        exact h8 (by simp)
      · exact he
    · exact absurd he (by simp)
  exact ⟨hiff, fun hs hu => (hmain hu).1 hs, hmain⟩

/-- C9 witness: a concrete spread four-finger hand (pinky down) is
classified "Unmute" by the detector, and its finger sum is not 5. -/
theorem claim_C9_witness :
    (fingers_up unmuteSnapshot).sum ≠ 5 ∧
    detect_unmute_gesture unmuteSnapshot = "Unmute" :=
  (claim_C9 unmuteSnapshot (by decide)).2.2 (by decide)

lemma stepDiscrete_lastGesture (s : HandlerState) (g : String) (t : ℚ)
    (ok : Bool) : (stepDiscrete s g t ok).2.2.lastGesture = g := by
  unfold stepDiscrete
  by_cases hg : g ≠ s.lastGesture <;>
    cases hl : s.actions.lookup g <;> simp_all

lemma stepDiscrete_currentGesture (s : HandlerState) (g : String) (t : ℚ)
    (ok : Bool) : (stepDiscrete s g t ok).2.2.currentGesture = g := by
  unfold stepDiscrete
  by_cases hg : g ≠ s.lastGesture <;>
    cases hl : s.actions.lookup g <;> simp_all

lemma stepDiscrete_frozen (s : HandlerState) (g : String) (t : ℚ) (ok : Bool)
    (h1 : s.lastGesture = g) (h2 : s.currentGesture = g) :
    stepDiscrete s g t ok = (false, false, s) := by
  subst h2
  unfold stepDiscrete
  have hg : ¬ s.currentGesture ≠ s.lastGesture := by simp [h1]
  cases hl : s.actions.lookup s.currentGesture <;> simp [hl, hg]

lemma runHold_frozen (s : HandlerState) (g : String)
    (frames : List (ℚ × Bool))
    (h1 : s.lastGesture = g) (h2 : s.currentGesture = g) :
    runHold s g frames = (frames.map (fun _ => (false, false)), s) := by
  induction frames with
  | nil => simp [runHold]
  | cons f rest ih =>
      simp [runHold, stepDiscrete_frozen s g f.1 f.2 h1 h2, ih]

/-- C1: on any frame, the dispatcher attempts a trigger exactly when the
label is a discrete action's key and differs from the previous frame's
label (the edge gate); a fired trigger additionally requires the cooldown
gate (the action's cooldown elapsed at the frame's time); and after the
first frame of a hold, every further frame carrying the same label
attempts nothing, fires nothing, and leaves the dispatcher state
unchanged, regardless of elapsed time. -/
theorem claim_C1 (s : HandlerState) (g : String) (t1 : ℚ) (ok1 : Bool)
    (rest : List (ℚ × Bool)) :
    ((stepDiscrete s g t1 ok1).1 = true ↔
      (s.actions.lookup g).isSome = true ∧ g ≠ s.lastGesture) ∧
    ((stepDiscrete s g t1 ok1).2.1 = true →
      g ≠ s.lastGesture ∧ ∃ a, s.actions.lookup g = some a ∧
        a.cooldown ≤ t1 - a.lastTriggered) ∧
    (runHold (stepDiscrete s g t1 ok1).2.2 g rest).1 =
      rest.map (fun _ => (false, false)) ∧
    (runHold (stepDiscrete s g t1 ok1).2.2 g rest).2 =
      (stepDiscrete s g t1 ok1).2.2 := by
  have hfrozen := runHold_frozen (stepDiscrete s g t1 ok1).2.2 g rest
    (stepDiscrete_lastGesture s g t1 ok1) (stepDiscrete_currentGesture s g t1 ok1)
  refine ⟨?_, ?_, by rw [hfrozen], by rw [hfrozen]⟩
  · unfold stepDiscrete
    by_cases hg : g ≠ s.lastGesture <;>
      cases hl : s.actions.lookup g <;> simp_all
  · intro hf
    unfold stepDiscrete at hf
    by_cases hg : g ≠ s.lastGesture
    · cases hl : s.actions.lookup g with
      | none => rw [hl] at hf; simp [hg] at hf
      | some a =>
          rw [hl] at hf
          simp only [hg, if_true, ite_true] at hf
          refine ⟨hg, a, rfl, ?_⟩
          by_contra hlt
          have hct : a.can_trigger t1 = false := by
            simp only [GestureAction.can_trigger, decide_eq_false_iff_not, not_le]
            push_neg at hlt
            linarith
          simp [GestureAction.trigger, hct, hg] at hf
    · cases hl : s.actions.lookup g <;> rw [hl] at hf <;> simp [hg] at hf

/-- C1 witness: from the initial state a first "OK" frame at time 5 fires
(edge and cooldown both pass); the following hold frames at times 5.5 and
100 attempt nothing and fire nothing, and the dispatcher state is
unchanged across them. -/
theorem claim_C1_witness :
    (stepDiscrete (initHandlerState 50) "OK" 5 true).2.1 = true ∧
    "OK" ≠ (initHandlerState 50).lastGesture ∧
    (runHold (stepDiscrete (initHandlerState 50) "OK" 5 true).2.2 "OK"
        [(11/2, true), (100, true)]).1 = [(false, false), (false, false)] ∧
    (runHold (stepDiscrete (initHandlerState 50) "OK" 5 true).2.2 "OK"
        [(11/2, true), (100, true)]).2 =
      (stepDiscrete (initHandlerState 50) "OK" 5 true).2.2 := by
  have h := claim_C1 (initHandlerState 50) "OK" 5 true [(11/2, true), (100, true)]
  have hcan : GestureAction.can_trigger ⟨"Play/Pause", 1, 0⟩ 5 = true := by
    simp only [GestureAction.can_trigger, decide_eq_true_eq]
    norm_num
  have hstep : (stepDiscrete (initHandlerState 50) "OK" 5 true).2.1 = true := by
    simp [stepDiscrete, initHandlerState, initActions, List.lookup,
      GestureAction.trigger, hcan]
  refine ⟨hstep, (h.2.1 hstep).1, ?_, h.2.2.2⟩
  rw [h.2.2.1]
  rfl
